import Mathlib

/-!
Verification development for the paanj client SDK core: the request channel
(ClientHttpClient), the streaming channel (ClientWebSocketClient) and the
session coordinator (PaanjClient), shallowly embedded from the TypeScript
sources.  Effectful code is modelled by explicit state passing; the network
is an oracle parameter; promise rejection is an Except error.
-/

namespace Paanj

/-! ## Request channel: ClientHttpClient (http-client.ts) -/

/-- An HTTP response as the request channel observes it: the ok flag, the
numeric status code and the (opaque) decoded body text. -/
structure HttpResponse where
  ok : Bool
  status : Nat
  body : String
deriving DecidableEq, Repr

/-- Errors a request can end in: a thrown HTTP error for a non-ok response
(http-client.ts lines 100-110), or the rethrown rejection of an awaited
refresh promise (the `await this.refreshPromise` at lines 85/92). -/
inductive ReqError where
  | httpError (status : Nat) (msg : String)
  | refreshRejected (msg : String)
deriving DecidableEq, Repr

/-- The tail of executeRequest for a response that does not take the
401-refresh branch: throw on non-ok, otherwise return the body. -/
def finishResponse (response : HttpResponse) : Except ReqError String :=
  if !response.ok then
    Except.error (ReqError.httpError response.status response.body)
  else
    Except.ok response.body

/-- ClientHttpClient.executeRequest, shallowly embedded.

* `hasCallback` — whether setRefreshTokenCallback has registered a callback;
* `refreshOutcome` — how the refresh promise settles (`Except.error` models a
  rejected promise, which an `await` rethrows);
* `resp` — the network oracle: the response observed by the fetch performed
  with a given value of the retryOn401 flag (the first attempt runs with the
  caller's flag, the retry always runs with `false`);
* `skipAuth`, `retryOn401` — the flags of the call.

The second component of the result is an instrumentation log: the value of
retryOn401 at each fetch actually performed, in order.  The guard mirrors
line 82 of http-client.ts; a rejected refresh propagates out of the `await`
before the retry line is reached; a fulfilled refresh falls through to the
recursive retry with retryOn401 forced to false (line 98). -/
def executeRequest (hasCallback : Bool) (refreshOutcome : Except String Unit)
    (resp : Bool → HttpResponse) (skipAuth : Bool) (retryOn401 : Bool) :
    Except ReqError String × List Bool :=
  let response := resp retryOn401
  if !response.ok && response.status == 401 && !skipAuth && retryOn401 && hasCallback then
    match refreshOutcome with
    | Except.error e => (Except.error (ReqError.refreshRejected e), [retryOn401])
    | Except.ok _ =>
        let rest := executeRequest hasCallback refreshOutcome resp skipAuth false
        (rest.1, retryOn401 :: rest.2)
  else
    (finishResponse response, [retryOn401])
termination_by (if retryOn401 then 1 else 0)
decreasing_by simp_all

/-- A call with retryOn401 = false performs exactly one fetch and never takes
the refresh branch. -/
theorem executeRequest_false (hasCallback : Bool) (refreshOutcome : Except String Unit)
    (resp : Bool → HttpResponse) (skipAuth : Bool) :
    executeRequest hasCallback refreshOutcome resp skipAuth false
      = (finishResponse (resp false), [false]) := by
  rw [executeRequest.eq_def]
  simp

/-- A response oracle that answers 401 unauthorized to every fetch. -/
def resp401 : Bool → HttpResponse := fun _ => ⟨false, 401, "unauthorized"⟩

/-- The fetch log of any executeRequest call is the caller's flag alone, or
the caller's flag followed by one retry with the flag false. -/
theorem executeRequest_log (hasCallback : Bool) (refreshOutcome : Except String Unit)
    (resp : Bool → HttpResponse) (skipAuth : Bool) (retryOn401 : Bool) :
    (executeRequest hasCallback refreshOutcome resp skipAuth retryOn401).2 = [retryOn401] ∨
    (executeRequest hasCallback refreshOutcome resp skipAuth retryOn401).2
      = [retryOn401, false] := by
  rw [executeRequest.eq_def]
  cases refreshOutcome with
  | error e =>
      split
      next e1 heq =>
        left
        dsimp only
        split
        · rfl
        · rfl
      next a heq => exact absurd heq (by simp)
  | ok u =>
      split
      next e1 heq => exact absurd heq (by simp)
      next a heq =>
        dsimp only
        split
        · right; simp [executeRequest_false]
        · left; rfl

/-! ### Concurrency model for the 401-refresh coordination

The refresh coordination of executeRequest (http-client.ts lines 82-98) under
the single-threaded cooperative scheduling of JavaScript: the only suspension
points are the fetch await, the refresh await and promise settlement, so the
check-then-set on `isRefreshing`/`refreshPromise` is atomic.  A trace is a
sequence of scheduler actions applied to a shared channel state:

* `got401 r` — request r's fetch resolves with 401 while the guard of line 82
  holds, and r runs the coordination block: it joins the waiters of an
  in-flight refresh, or starts the refresh (becoming a waiter on its own
  promise), or — when `isRefreshing` is set but no promise exists — falls
  through both branches and retries immediately;
* `settle success` — the in-flight refresh callback settles; its `finally`
  clears `isRefreshing` and `refreshPromise`, then every waiter resumes: on
  fulfilment each proceeds to its single retry (line 98), on rejection each
  waiter's `await` rethrows and no retry is issued. -/

/-- Shared state of the request channel's refresh coordination, instrumented
with the number of refresh-callback invocations and the identities of the
requests that reached their retry (`retried`) or propagated the rejected
refresh (`erroredWith`). -/
structure RefreshState where
  isRefreshing : Bool
  refreshPromise : Bool
  refreshStarts : Nat
  waiters : List Nat
  retried : List Nat
  erroredWith : List Nat
deriving DecidableEq, Repr

/-- Fresh ClientHttpClient coordination state: no refresh in flight. -/
def RefreshState.init : RefreshState := ⟨false, false, 0, [], [], []⟩

/-- Scheduler actions of the refresh-coordination trace semantics. -/
inductive RefreshAction where
  | got401 (r : Nat)
  | settle (success : Bool)
deriving DecidableEq, Repr

/-- One scheduler action applied to the shared state; the `got401` case is
the conditional chain of http-client.ts lines 84-94, the `settle` case is the
`finally` cleanup plus the resumption of every awaiting request. -/
def refreshStep (s : RefreshState) : RefreshAction → RefreshState
  | RefreshAction.got401 r =>
      if s.isRefreshing && s.refreshPromise then
        { s with waiters := s.waiters ++ [r] }
      else if !s.isRefreshing then
        { s with isRefreshing := true, refreshPromise := true,
                 refreshStarts := s.refreshStarts + 1, waiters := s.waiters ++ [r] }
      else
        { s with retried := s.retried ++ [r] }
  | RefreshAction.settle success =>
      { s with isRefreshing := false, refreshPromise := false,
               retried := if success then s.retried ++ s.waiters else s.retried,
               erroredWith := if success then s.erroredWith else s.erroredWith ++ s.waiters,
               waiters := [] }

/-- Run a trace of scheduler actions from a state. -/
def refreshRun (s : RefreshState) (actions : List RefreshAction) : RefreshState :=
  actions.foldl refreshStep s

/-- While a refresh is in flight, every further 401 only joins the waiters:
no second refresh starts and nothing is retried yet. -/
theorem refreshRun_got401_inflight (rs : List Nat) (s : RefreshState)
    (h1 : s.isRefreshing = true) (h2 : s.refreshPromise = true) :
    refreshRun s (rs.map RefreshAction.got401) = { s with waiters := s.waiters ++ rs } := by
  induction rs generalizing s with
  | nil => simp [refreshRun]
  | cons r rest ih =>
      have hstep : refreshStep s (RefreshAction.got401 r)
          = { s with waiters := s.waiters ++ [r] } := by
        simp [refreshStep, h1, h2]
      have := ih { s with waiters := s.waiters ++ [r] } h1 h2
      simp only [refreshRun, List.map_cons, List.foldl_cons] at *
      rw [hstep, this]
      simp

/-- Claim C1, counterexample to the claim as stated: two concurrent requests
both receive a 401 while the same refresh is in flight; the refresh settles
by rejecting.  The refresh callback was invoked exactly once, but neither
request is retried — both propagate the rejected refresh instead — refuting
the claim that every such request is retried once after the shared refresh
settles (whether it settles by fulfilment or rejection). -/
theorem C1_counterexample :
    (refreshRun RefreshState.init
        [RefreshAction.got401 0, RefreshAction.got401 1,
         RefreshAction.settle false]).refreshStarts = 1 ∧
    (refreshRun RefreshState.init
        [RefreshAction.got401 0, RefreshAction.got401 1,
         RefreshAction.settle false]).retried = [] ∧
    (refreshRun RefreshState.init
        [RefreshAction.got401 0, RefreshAction.got401 1,
         RefreshAction.settle false]).erroredWith = [0, 1] :=
  ⟨rfl, rfl, rfl⟩

/-- Claim C1 (amended): for every nonempty set of concurrent requests that
each receive a 401 while the (first-triggered) refresh is in flight, the
refresh callback is invoked exactly once — later observers await the same
shared pending outcome instead of starting a new refresh.  When the shared
refresh settles successfully every such request is retried exactly once;
when it settles by rejection, every such request propagates that rejection
and none is retried. -/
theorem C1_single_refresh_shared_outcome (rs : List Nat) (h : rs ≠ []) (success : Bool) :
    (refreshRun RefreshState.init
        (rs.map RefreshAction.got401 ++ [RefreshAction.settle success])).refreshStarts = 1 ∧
    (refreshRun RefreshState.init
        (rs.map RefreshAction.got401 ++ [RefreshAction.settle success])).retried
      = (if success then rs else []) ∧
    (refreshRun RefreshState.init
        (rs.map RefreshAction.got401 ++ [RefreshAction.settle success])).erroredWith
      = (if success then [] else rs) := by
  obtain ⟨r, rest, rfl⟩ := List.exists_cons_of_ne_nil h
  have hmid : refreshRun RefreshState.init ((r :: rest).map RefreshAction.got401)
      = ⟨true, true, 1, r :: rest, [], []⟩ := by
    simp only [List.map_cons, refreshRun, List.foldl_cons]
    rw [show refreshStep RefreshState.init (RefreshAction.got401 r)
          = ⟨true, true, 1, [r], [], []⟩ from rfl]
    have hrun := refreshRun_got401_inflight rest ⟨true, true, 1, [r], [], []⟩ rfl rfl
    simpa [refreshRun] using hrun
  have hmid2 : List.foldl refreshStep RefreshState.init
        ((r :: rest).map RefreshAction.got401)
      = ⟨true, true, 1, r :: rest, [], []⟩ := hmid
  have hfull : refreshRun RefreshState.init
        ((r :: rest).map RefreshAction.got401 ++ [RefreshAction.settle success])
      = refreshStep ⟨true, true, 1, r :: rest, [], []⟩ (RefreshAction.settle success) := by
    rw [refreshRun, List.foldl_append, hmid2]
    rfl
  rw [hfull]
  cases success <;> simp [refreshStep]

/-- Witness for the amended C1 theorem at two requests and a successful
refresh: refresh invoked once, both requests retried. -/
theorem C1_single_refresh_witness :
    ([0, 1] : List Nat) ≠ [] ∧
    ((refreshRun RefreshState.init
        (([0, 1] : List Nat).map RefreshAction.got401
          ++ [RefreshAction.settle true])).refreshStarts = 1 ∧
     (refreshRun RefreshState.init
        (([0, 1] : List Nat).map RefreshAction.got401
          ++ [RefreshAction.settle true])).retried
       = (if true then [0, 1] else []) ∧
     (refreshRun RefreshState.init
        (([0, 1] : List Nat).map RefreshAction.got401
          ++ [RefreshAction.settle true])).erroredWith
       = (if true then [] else [0, 1])) :=
  ⟨by decide, C1_single_refresh_shared_outcome [0, 1] (by decide) true⟩

/-- Claim C2, counterexample to the claim as stated: a single request gets a
401 (skipAuth false, retryOn401 true, callback registered) and the triggered
refresh fails.  The `await this.refreshPromise` rethrows the rejection, so
executeRequest propagates the refresh error and the fetch log shows no retry
— refuting the claim that even when the refresh fails the retry is still
issued with whatever token is current. -/
theorem C2_counterexample :
    executeRequest true (Except.error "refresh failed") resp401 false true
      = (Except.error (ReqError.refreshRejected "refresh failed"), [true]) := by
  rw [executeRequest.eq_def]
  simp [resp401]

/-- Claim C2 (amended): a request that receives a 401 with skipAuthorization
false, allowRefreshRetry true and a refresh callback registered is, when the
triggered refresh settles successfully, retried exactly once with the retry
flag forced to false, the retry's outcome becoming the call's outcome; when
the refresh settles by rejection, the rejection propagates to the caller and
no retry is issued. -/
theorem C2_retry_once_after_refresh (resp : Bool → HttpResponse)
    (h1 : (resp true).ok = false) (h2 : (resp true).status = 401) :
    (executeRequest true (Except.ok ()) resp false true).2 = [true, false] ∧
    (executeRequest true (Except.ok ()) resp false true).1
      = finishResponse (resp false) ∧
    ∀ e : String, executeRequest true (Except.error e) resp false true
      = (Except.error (ReqError.refreshRejected e), [true]) := by
  refine ⟨?_, ?_, ?_⟩
  · rw [executeRequest.eq_def]
    simp [h1, h2, executeRequest_false]
  · rw [executeRequest.eq_def]
    simp [h1, h2, executeRequest_false]
  · intro e
    rw [executeRequest.eq_def]
    simp [h1, h2]

/-- Witness for the amended C2 theorem at the all-401 response oracle. -/
theorem C2_retry_once_witness :
    (resp401 true).ok = false ∧ (resp401 true).status = 401 ∧
    ((executeRequest true (Except.ok ()) resp401 false true).2 = [true, false] ∧
     (executeRequest true (Except.ok ()) resp401 false true).1
       = finishResponse (resp401 false) ∧
     ∀ e : String, executeRequest true (Except.error e) resp401 false true
       = (Except.error (ReqError.refreshRejected e), [true])) :=
  ⟨rfl, rfl, C2_retry_once_after_refresh resp401 rfl rfl⟩

/-- Claim C3: a retry issued after a refresh never triggers a second
refresh-and-retry: every fetch after the first is performed with the retry
flag false, at most two fetches ever happen (recursion depth at most two),
and a call whose retry flag is already false performs exactly one fetch and
never enters the refresh branch, so the request loop terminates. -/
theorem C3_retry_never_refreshes_again (hasCallback : Bool)
    (refreshOutcome : Except String Unit) (resp : Bool → HttpResponse)
    (skipAuth : Bool) (retryOn401 : Bool) :
    (executeRequest hasCallback refreshOutcome resp skipAuth retryOn401).2.length ≤ 2 ∧
    (((executeRequest hasCallback refreshOutcome resp skipAuth retryOn401).2.drop 1).all
      (fun b => b == false)) = true ∧
    executeRequest hasCallback refreshOutcome resp skipAuth false
      = (finishResponse (resp false), [false]) := by
  refine ⟨?_, ?_, executeRequest_false hasCallback refreshOutcome resp skipAuth⟩
  · rcases executeRequest_log hasCallback refreshOutcome resp skipAuth retryOn401 with h | h <;>
      simp [h]
  · rcases executeRequest_log hasCallback refreshOutcome resp skipAuth retryOn401 with h | h <;>
      simp [h]

/-! ## Streaming channel: ClientWebSocketClient (websocket-client.ts)

Numbers are modelled as rationals (the delay arithmetic of the source stays
exact on them); the attempt counters are naturals.  The handle to a pending
reconnect timer is the boolean `reconnectTimeout`; `scheduledCount` counts
how many reconnects were ever scheduled (the observable effect of
scheduleReconnect's setTimeout). -/

/-- Constructor options of ClientWebSocketClient (lines 23-30): every field
optional. -/
structure WsOptions where
  autoReconnect : Option Bool
  reconnectInterval : Option ℚ
  maxReconnectAttempts : Option Nat
  backoffBase : Option ℚ
  backoffMax : Option ℚ
  jitter : Option Bool
deriving DecidableEq, Repr

/-- Mutable state of a ClientWebSocketClient instance (fields of lines
5-18, with `scheduledCount` as instrumentation). -/
structure WsState where
  apiKey : String
  wsUrl : String
  accessToken : Option String
  autoReconnect : Bool
  reconnectInterval : ℚ
  maxReconnectAttempts : Nat
  reconnectAttempts : Nat
  isConnected : Bool
  reconnectTimeout : Bool
  backoffBase : ℚ
  backoffMax : ℚ
  jitter : Bool
  scheduledCount : Nat
deriving DecidableEq, Repr

/-- The ClientWebSocketClient constructor (lines 20-40) with its `??`
defaults. -/
def ClientWebSocketClient.mkState (apiKey wsUrl : String) (options : WsOptions) : WsState :=
  { apiKey := apiKey
    wsUrl := wsUrl
    accessToken := none
    autoReconnect := options.autoReconnect.getD true
    reconnectInterval := options.reconnectInterval.getD 5000
    maxReconnectAttempts := options.maxReconnectAttempts.getD 10
    reconnectAttempts := 0
    isConnected := false
    reconnectTimeout := false
    backoffBase := options.backoffBase.getD 0
    backoffMax := options.backoffMax.getD 30000
    jitter := options.jitter.getD true
    scheduledCount := 0 }

/-- ClientWebSocketClient.scheduleReconnect (lines 111-141): increment the
attempt counter, compute the delay (exponential backoff when backoffBase is
positive, clamped when backoffMax is positive, else the fixed interval;
jitter scales by 0.8 + rand * 0.4 and floors), and set the timer.  `rand` is
the value Math.random() returns.  Result: updated state and the delay. -/
def scheduleReconnect (s : WsState) (rand : ℚ) : WsState × ℚ :=
  let attempts := s.reconnectAttempts + 1
  let delay0 : ℚ := s.reconnectInterval
  let delay1 : ℚ :=
    if 0 < s.backoffBase then
      let d := s.backoffBase * 2 ^ (attempts - 1)
      if 0 < s.backoffMax then min d s.backoffMax else d
    else delay0
  let delay2 : ℚ :=
    if s.jitter then ((Int.floor (delay1 * (0.8 + rand * 0.4)) : ℤ) : ℚ) else delay1
  ({ s with reconnectAttempts := attempts, reconnectTimeout := true,
            scheduledCount := s.scheduledCount + 1 }, delay2)

/-- The onopen handler (lines 71-76): mark connected, reset the attempt
counter. -/
def onOpen (s : WsState) : WsState :=
  { s with isConnected := true, reconnectAttempts := 0 }

/-- The onclose handler (lines 88-95): mark disconnected; schedule a
reconnect when autoReconnect is on and the attempt counter is below the
maximum. -/
def onUnexpectedClose (s : WsState) (rand : ℚ) : WsState :=
  let s1 := { s with isConnected := false }
  if s1.autoReconnect ∧ s1.reconnectAttempts < s1.maxReconnectAttempts then
    (scheduleReconnect s1 rand).1
  else s1

/-- ClientWebSocketClient.disconnect (lines 205-215): turn autoReconnect
off, cancel any pending reconnect timer, close the socket. -/
def disconnect (s : WsState) : WsState :=
  { s with autoReconnect := false, reconnectTimeout := false, isConnected := false }

/-- The synchronous part of connect() before any handler fires (lines
60-68): builds the socket; none of the modelled fields change until
onopen/onclose/onerror run. -/
def connectStart (s : WsState) : WsState := s

/-- ClientWebSocketClient.setAccessToken (lines 42-50): store the token;
when connected, disconnect and reconnect so the new token takes effect. -/
def setAccessToken (s : WsState) (token : String) : WsState :=
  let s1 := { s with accessToken := some token }
  if s1.isConnected then connectStart (disconnect s1) else s1

/-- Externally triggered transitions of a ClientWebSocketClient. -/
inductive WsEvent where
  | openEv
  | closeEv (rand : ℚ)
  | setToken (token : String)
  | disconnectEv
  | connectEv
deriving DecidableEq

/-- Apply one transition. -/
def wsStep (s : WsState) : WsEvent → WsState
  | WsEvent.openEv => onOpen s
  | WsEvent.closeEv rand => onUnexpectedClose s rand
  | WsEvent.setToken t => setAccessToken s t
  | WsEvent.disconnectEv => disconnect s
  | WsEvent.connectEv => connectStart s

/-- Apply a sequence of transitions. -/
def wsRun (s : WsState) (evs : List WsEvent) : WsState := evs.foldl wsStep s

/-- A close that cannot schedule (autoReconnect off, or the budget spent)
only clears the connected flag. -/
theorem onUnexpectedClose_no_schedule (s : WsState) (rand : ℚ)
    (h : s.autoReconnect = false ∨ s.maxReconnectAttempts ≤ s.reconnectAttempts) :
    onUnexpectedClose s rand = { s with isConnected := false } := by
  rcases h with h | h
  · simp [onUnexpectedClose, h]
  · have hnl : ¬ s.reconnectAttempts < s.maxReconnectAttempts := Nat.not_lt.mpr h
    simp [onUnexpectedClose, hnl]

/-- No transition turns the autoReconnect flag back on. -/
theorem wsStep_keeps_autoReconnect_off (s : WsState) (e : WsEvent)
    (h : s.autoReconnect = false) : (wsStep s e).autoReconnect = false := by
  cases e with
  | openEv => simpa [wsStep, onOpen] using h
  | closeEv rand => simp [wsStep, onUnexpectedClose, h]
  | setToken t =>
      simp only [wsStep, setAccessToken, connectStart, disconnect]
      split
      · simp
      · simpa using h
  | disconnectEv => simp [wsStep, disconnect]
  | connectEv => simpa [wsStep, connectStart] using h

/-- No sequence of transitions turns the autoReconnect flag back on. -/
theorem wsRun_keeps_autoReconnect_off (evs : List WsEvent) (s : WsState)
    (h : s.autoReconnect = false) : (wsRun s evs).autoReconnect = false := by
  induction evs generalizing s with
  | nil => simpa [wsRun] using h
  | cons e rest ih =>
      exact ih (wsStep s e) (wsStep_keeps_autoReconnect_off s e h)

/-- Field accounting for a single close transition. -/
theorem wsStep_close_fields (s : WsState) (rand : ℚ) :
    (wsStep s (WsEvent.closeEv rand)).autoReconnect = s.autoReconnect ∧
    (wsStep s (WsEvent.closeEv rand)).maxReconnectAttempts = s.maxReconnectAttempts ∧
    (wsStep s (WsEvent.closeEv rand)).reconnectAttempts
      = (if s.autoReconnect = true ∧ s.reconnectAttempts < s.maxReconnectAttempts
         then s.reconnectAttempts + 1 else s.reconnectAttempts) := by
  by_cases h : s.autoReconnect = true ∧ s.reconnectAttempts < s.maxReconnectAttempts
  · simp [wsStep, onUnexpectedClose, scheduleReconnect, h]
  · simp [wsStep, onUnexpectedClose, scheduleReconnect, h]

/-- With autoReconnect on and the counter within the budget, a run of
consecutive failed attempts drives the counter to the minimum of
start + failures and the budget, never past it. -/
theorem wsRun_closes_attempts (rands : List ℚ) (s : WsState)
    (ha : s.autoReconnect = true) (hb : s.reconnectAttempts ≤ s.maxReconnectAttempts) :
    (wsRun s (rands.map WsEvent.closeEv)).reconnectAttempts
        = min (s.reconnectAttempts + rands.length) s.maxReconnectAttempts ∧
    (wsRun s (rands.map WsEvent.closeEv)).autoReconnect = true ∧
    (wsRun s (rands.map WsEvent.closeEv)).maxReconnectAttempts = s.maxReconnectAttempts := by
  induction rands generalizing s with
  | nil =>
      refine ⟨?_, ha, rfl⟩
      simp only [List.map_nil, wsRun, List.foldl_nil, List.length_nil]
      omega
  | cons r rest ih =>
      obtain ⟨f1, f2, f3⟩ := wsStep_close_fields s r
      have hrun : wsRun s ((r :: rest).map WsEvent.closeEv)
          = wsRun (wsStep s (WsEvent.closeEv r)) (rest.map WsEvent.closeEv) := rfl
      rw [hrun]
      by_cases hlt : s.reconnectAttempts < s.maxReconnectAttempts
      · have h3 : (wsStep s (WsEvent.closeEv r)).reconnectAttempts
            = s.reconnectAttempts + 1 := by
          rw [f3]; simp [ha, hlt]
        obtain ⟨g1, g2, g3⟩ := ih (wsStep s (WsEvent.closeEv r))
            (by rw [f1]; exact ha) (by rw [h3, f2]; omega)
        refine ⟨?_, g2, by rw [g3, f2]⟩
        rw [g1, h3, f2]
        simp only [List.length_cons]
        omega
      · have h3 : (wsStep s (WsEvent.closeEv r)).reconnectAttempts
            = s.reconnectAttempts := by
          rw [f3]; simp [hlt]
        obtain ⟨g1, g2, g3⟩ := ih (wsStep s (WsEvent.closeEv r))
            (by rw [f1]; exact ha) (by rw [h3, f2]; omega)
        refine ⟨?_, g2, by rw [g3, f2]⟩
        rw [g1, h3, f2]
        simp only [List.length_cons]
        omega

/-- Claim C6: the attempt counter is incremented before each scheduled
reconnect and reset only on a successful open; after maxReconnectAttempts
consecutive failed connection attempts from a fresh counter, an unexpected
close only clears the connected flag — it schedules no further reconnect
(neither timer nor schedule count changes). -/
theorem C6_budget_stops_reconnect (s : WsState) (h0 : s.reconnectAttempts = 0)
    (rands : List ℚ) (hlen : s.maxReconnectAttempts ≤ rands.length) (rand : ℚ) :
    wsStep (wsRun s (rands.map WsEvent.closeEv)) (WsEvent.closeEv rand)
      = { wsRun s (rands.map WsEvent.closeEv) with isConnected := false } := by
  cases har : s.autoReconnect with
  | false =>
      have h2 := wsRun_keeps_autoReconnect_off (rands.map WsEvent.closeEv) s har
      simpa [wsStep] using
        onUnexpectedClose_no_schedule (wsRun s (rands.map WsEvent.closeEv)) rand (Or.inl h2)
  | true =>
      obtain ⟨g1, g2, g3⟩ := wsRun_closes_attempts rands s har (by omega)
      have hexh : (wsRun s (rands.map WsEvent.closeEv)).maxReconnectAttempts
          ≤ (wsRun s (rands.map WsEvent.closeEv)).reconnectAttempts := by
        rw [g1, g3, h0]; omega
      simpa [wsStep] using
        onUnexpectedClose_no_schedule (wsRun s (rands.map WsEvent.closeEv)) rand (Or.inr hexh)

/-- A streaming channel configured with a budget of two attempts. -/
def wsBudgetEx : WsState :=
  ClientWebSocketClient.mkState "key" "ws://localhost:8090"
    ⟨some true, some 5000, some 2, none, none, none⟩

/-- Witness for C6: after two failed attempts on a budget of two, a further
close changes nothing but the connected flag. -/
theorem C6_budget_witness :
    wsBudgetEx.reconnectAttempts = 0 ∧
    wsBudgetEx.maxReconnectAttempts ≤ ([0, 0] : List ℚ).length ∧
    wsStep (wsRun wsBudgetEx (([0, 0] : List ℚ).map WsEvent.closeEv)) (WsEvent.closeEv 0)
      = { wsRun wsBudgetEx (([0, 0] : List ℚ).map WsEvent.closeEv) with isConnected := false } :=
  ⟨rfl, by decide, C6_budget_stops_reconnect wsBudgetEx rfl [0, 0] (by decide) 0⟩

/-- Claim C9: rotating the access token while the streaming channel is
connected runs disconnect() then connect(); disconnect turns autoReconnect
off and no later operation ever turns it back on, so after a token rotation
on an open connection an unexpected close — at any later point — only clears
the connected flag and never schedules an automatic reconnect, whatever
autoReconnect was configured to. -/
theorem C9_rotation_disables_reconnect (s : WsState) (t : String)
    (hconn : s.isConnected = true) (evs : List WsEvent) (rand : ℚ) :
    (setAccessToken s t).autoReconnect = false ∧
    (wsRun (setAccessToken s t) evs).autoReconnect = false ∧
    wsStep (wsRun (setAccessToken s t) evs) (WsEvent.closeEv rand)
      = { wsRun (setAccessToken s t) evs with isConnected := false } := by
  have h1 : (setAccessToken s t).autoReconnect = false := by
    simp [setAccessToken, connectStart, disconnect, hconn]
  have h2 := wsRun_keeps_autoReconnect_off evs (setAccessToken s t) h1
  refine ⟨h1, h2, ?_⟩
  simpa [wsStep] using
    onUnexpectedClose_no_schedule (wsRun (setAccessToken s t) evs) rand (Or.inl h2)

/-- A connected streaming channel built with default options. -/
def wsConnectedEx : WsState :=
  onOpen (ClientWebSocketClient.mkState "key" "ws://localhost:8090"
    ⟨some true, some 5000, some 10, none, none, none⟩)

/-- Witness for C9 at a concrete connected channel. -/
theorem C9_rotation_witness :
    wsConnectedEx.isConnected = true ∧
    ((setAccessToken wsConnectedEx "tok").autoReconnect = false ∧
     (wsRun (setAccessToken wsConnectedEx "tok") []).autoReconnect = false ∧
     wsStep (wsRun (setAccessToken wsConnectedEx "tok") []) (WsEvent.closeEv 0)
       = { wsRun (setAccessToken wsConnectedEx "tok") [] with isConnected := false }) :=
  ⟨rfl, C9_rotation_disables_reconnect wsConnectedEx "tok" rfl [] 0⟩

/-- A channel mid-reconnect with backoffBase 100, backoffMax 0 and jitter
off, about to schedule its first attempt. -/
def wsBackoffNoMaxEx : WsState :=
  { apiKey := "key", wsUrl := "ws://localhost:8090", accessToken := none,
    autoReconnect := true, reconnectInterval := 5000, maxReconnectAttempts := 10,
    reconnectAttempts := 0, isConnected := false, reconnectTimeout := false,
    backoffBase := 100, backoffMax := 0, jitter := false, scheduledCount := 0 }

/-- Claim C5, counterexample to the claim as stated: the code clamps the
exponential delay only when backoffMax is positive (websocket-client.ts line
121).  With backoffBase 100, backoffMax 0, jitter off, attempt 1 the code
schedules a 100 ms delay, while the claimed formula
min(backoffBase * 2 ^ (N - 1), backoffMax) gives 0. -/
theorem C5_counterexample :
    (scheduleReconnect wsBackoffNoMaxEx 0).2 = 100 ∧
    min (wsBackoffNoMaxEx.backoffBase * 2 ^ (1 - 1)) wsBackoffNoMaxEx.backoffMax = 0 ∧
    (100 : ℚ) ≠ 0 := by
  refine ⟨?_, ?_, by norm_num⟩
  · simp [scheduleReconnect, wsBackoffNoMaxEx]
  · simp [wsBackoffNoMaxEx]

/-- Claim C5 (amended): the delay scheduled for attempt N (that is, from a
state whose attempt counter still reads N - 1) with jitter disabled is
exactly backoffBase * 2 ^ (N - 1) clamped to backoffMax when both
backoffBase and backoffMax are positive, the unclamped
backoffBase * 2 ^ (N - 1) when backoffBase is positive but backoffMax is
not, and the fixed reconnectInterval when backoffBase is not positive; no
random scaling enters (the delay is the same for every value of the random
draw).  Concretely, backoffBase 100, backoffMax 1000, jitter off gives
100 ms for attempt 1, 800 ms for attempt 4 and the clamped 1000 ms for
attempt 5 — see the witness. -/
theorem C5_backoff_delay (s : WsState) (rand : ℚ) (hjit : s.jitter = false) :
    (0 < s.backoffBase → 0 < s.backoffMax →
      (scheduleReconnect s rand).2
        = min (s.backoffBase * 2 ^ s.reconnectAttempts) s.backoffMax) ∧
    (0 < s.backoffBase → s.backoffMax ≤ 0 →
      (scheduleReconnect s rand).2 = s.backoffBase * 2 ^ s.reconnectAttempts) ∧
    (s.backoffBase ≤ 0 → (scheduleReconnect s rand).2 = s.reconnectInterval) := by
  refine ⟨fun h1 h2 => ?_, fun h1 h2 => ?_, fun h1 => ?_⟩
  · simp [scheduleReconnect, hjit, h1, h2]
  · simp [scheduleReconnect, hjit, h1, not_lt.mpr h2]
  · simp [scheduleReconnect, hjit, not_lt.mpr h1]

/-- A channel with backoffBase 100, backoffMax 1000, jitter off, whose
attempt counter reads `attempts`. -/
def wsBackoffEx (attempts : Nat) : WsState :=
  { apiKey := "key", wsUrl := "ws://localhost:8090", accessToken := none,
    autoReconnect := true, reconnectInterval := 5000, maxReconnectAttempts := 10,
    reconnectAttempts := attempts, isConnected := false, reconnectTimeout := false,
    backoffBase := 100, backoffMax := 1000, jitter := false, scheduledCount := 0 }

/-- Witness for the amended C5 theorem at the claim's concrete numbers:
attempts 1, 4 and 5 give 100 ms, 800 ms and the clamped 1000 ms. -/
theorem C5_backoff_witness :
    (wsBackoffEx 0).jitter = false ∧ (0 : ℚ) < (wsBackoffEx 0).backoffBase ∧
    (0 : ℚ) < (wsBackoffEx 0).backoffMax ∧
    (scheduleReconnect (wsBackoffEx 0) 0).2 = 100 ∧
    (scheduleReconnect (wsBackoffEx 3) 0).2 = 800 ∧
    (scheduleReconnect (wsBackoffEx 4) 0).2 = 1000 := by
  have h1 := (C5_backoff_delay (wsBackoffEx 0) 0 rfl).1 (by norm_num [wsBackoffEx])
    (by norm_num [wsBackoffEx])
  have h4 := (C5_backoff_delay (wsBackoffEx 3) 0 rfl).1 (by norm_num [wsBackoffEx])
    (by norm_num [wsBackoffEx])
  have h5 := (C5_backoff_delay (wsBackoffEx 4) 0 rfl).1 (by norm_num [wsBackoffEx])
    (by norm_num [wsBackoffEx])
  refine ⟨rfl, by norm_num [wsBackoffEx], by norm_num [wsBackoffEx], ?_, ?_, ?_⟩
  · rw [h1]; norm_num [wsBackoffEx]
  · rw [h4]; norm_num [wsBackoffEx]
  · rw [h5]; norm_num [wsBackoffEx]

/-! ## Session coordinator: PaanjClient (paanj-client.ts) -/

/-- JavaScript `x || fallback` on an optional string: null and the empty
string both select the fallback. -/
def jsOrStrOpt : Option String → String → String
  | none, fallback => fallback
  | some s, fallback => if s = "" then fallback else s

/-- ClientOptions (core-types.ts lines 3-10): the apiKey plus five optional
fields.  The interface has no backoffBase, backoffMax or jitter field. -/
structure ClientOptions where
  apiKey : String
  apiUrl : Option String
  wsUrl : Option String
  autoReconnect : Option Bool
  reconnectInterval : Option ℚ
  maxReconnectAttempts : Option Nat
deriving DecidableEq, Repr

/-- The websocket options the PaanjClient constructor passes to the
streaming channel (paanj-client.ts lines, constructor): only autoReconnect,
reconnectInterval and maxReconnectAttempts, already resolved against their
defaults; backoffBase, backoffMax and jitter are never passed. -/
def PaanjClient.wsOptionsOf (options : ClientOptions) : WsOptions :=
  { autoReconnect := some (options.autoReconnect.getD true)
    reconnectInterval := some (options.reconnectInterval.getD 5000)
    maxReconnectAttempts := some (options.maxReconnectAttempts.getD 10)
    backoffBase := none
    backoffMax := none
    jitter := none }

/-- The streaming channel the PaanjClient constructor builds. -/
def PaanjClient.mkWsClient (options : ClientOptions) : WsState :=
  ClientWebSocketClient.mkState options.apiKey
    (jsOrStrOpt options.wsUrl "ws://localhost:8090")
    (PaanjClient.wsOptionsOf options)

/-- A fully specified client configuration. -/
def optsFull : ClientOptions :=
  ⟨"key", some "http://localhost:3000", some "ws://localhost:8090",
    some true, some 5000, some 10⟩

/-- Claim C4, counterexample to the claim as stated: ClientOptions carries
no backoffBase, backoffMax or jitter field and the PaanjClient constructor
never passes them, so even a fully specified configuration yields a
streaming channel pinned to backoffBase 0, backoffMax 30000 and jitter true;
in particular a backoffBase of 100 (the value the spec's own backoff example
assumes) is not reachable through the client's configuration surface. -/
theorem C4_counterexample :
    (PaanjClient.mkWsClient optsFull).backoffBase = 0 ∧
    (PaanjClient.mkWsClient optsFull).backoffMax = 30000 ∧
    (PaanjClient.mkWsClient optsFull).jitter = true ∧
    (PaanjClient.mkWsClient optsFull).backoffBase ≠ 100 := by
  refine ⟨rfl, rfl, rfl, ?_⟩
  rw [show (PaanjClient.mkWsClient optsFull).backoffBase = 0 from rfl]
  norm_num

/-- Claim C4 (amended): the client's configuration surface accepts apiKey,
apiUrl, wsUrl, autoReconnect (default true), reconnectInterval (default
5000), maxReconnectAttempts (default 10), and the streaming channel the
client constructs uses those configured values; it accepts no backoffBase,
backoffMax or jitter option, and the constructed channel always uses
backoffBase 0 (fixed-interval reconnects), backoffMax 30000 and jitter true
regardless of the configuration. -/
theorem C4_configuration_surface (options : ClientOptions) :
    (PaanjClient.mkWsClient options).autoReconnect = options.autoReconnect.getD true ∧
    (PaanjClient.mkWsClient options).reconnectInterval
      = options.reconnectInterval.getD 5000 ∧
    (PaanjClient.mkWsClient options).maxReconnectAttempts
      = options.maxReconnectAttempts.getD 10 ∧
    (PaanjClient.mkWsClient options).wsUrl = jsOrStrOpt options.wsUrl "ws://localhost:8090" ∧
    (PaanjClient.mkWsClient options).apiKey = options.apiKey ∧
    (PaanjClient.mkWsClient options).backoffBase = 0 ∧
    (PaanjClient.mkWsClient options).backoffMax = 30000 ∧
    (PaanjClient.mkWsClient options).jitter = true := by
  simp [PaanjClient.mkWsClient, PaanjClient.wsOptionsOf, ClientWebSocketClient.mkState]

/-! ## Streaming channel: listener registry and inbound fan-out -/

/-- The listener registry (websocket-client.ts line 13): event key to the
set of registered handlers, handlers abstracted by numeric ids. -/
def Registry := List (String × List Nat)

/-- Handlers registered under a key (the Map lookup of emit, line 194). -/
def handlersOf (registry : Registry) (event : String) : List Nat :=
  match List.lookup event registry with
  | some hs => hs
  | none => []

/-- ClientWebSocketClient.emit (lines 193-203): every handler registered
under the key is invoked with the payload; the result lists the invocations
performed, in order. -/
def emit (registry : Registry) (event : String) (data : String) : List (Nat × String) :=
  (handlersOf registry event).map (fun h => (h, data))

/-- ClientEvent (core-types.ts lines 28-34): an inbound event message. -/
structure ClientEvent where
  event : String
  resource : String
  resourceId : String
  data : String
deriving DecidableEq, Repr

/-- Decoded inbound messages by their `type` discriminant (the shapes
handleMessage recognizes, plus anything else). -/
inductive InboundMessage where
  | eventMsg (e : ClientEvent)
  | subscribedMsg (resource : String) (id : Option String) (events : List String)
  | pongMsg
  | otherMsg
deriving DecidableEq, Repr

/-- ClientWebSocketClient.handleMessage (lines 174-191): an event message
fans out first to the composite resource:resourceId:event key, then to the
bare event key, both with the same payload; subscribed and pong messages
(and unknown discriminants) invoke no listeners. -/
def handleMessage (registry : Registry) (m : InboundMessage) : List (Nat × String) :=
  match m with
  | InboundMessage.eventMsg e =>
      let eventKey := e.resource ++ ":" ++ e.resourceId ++ ":" ++ e.event
      emit registry eventKey e.data ++ emit registry e.event e.data
  | InboundMessage.subscribedMsg _ _ _ => []
  | InboundMessage.pongMsg => []
  | InboundMessage.otherMsg => []

/-- Claim C8: an inbound event message invokes every listener registered
under the composite resourceType:resourceId:eventName key and every listener
registered under the bare eventName key, each with the message's payload;
the invocation list is exactly the fan-out to those two keys. -/
theorem C8_event_fanout (registry : Registry) (e : ClientEvent) (hc hb : Nat)
    (h1 : hc ∈ handlersOf registry (e.resource ++ ":" ++ e.resourceId ++ ":" ++ e.event))
    (h2 : hb ∈ handlersOf registry e.event) :
    (hc, e.data) ∈ handleMessage registry (InboundMessage.eventMsg e) ∧
    (hb, e.data) ∈ handleMessage registry (InboundMessage.eventMsg e) ∧
    handleMessage registry (InboundMessage.eventMsg e)
      = emit registry (e.resource ++ ":" ++ e.resourceId ++ ":" ++ e.event) e.data
        ++ emit registry e.event e.data := by
  refine ⟨?_, ?_, rfl⟩
  · exact List.mem_append_left _ (List.mem_map_of_mem (fun h => (h, e.data)) h1)
  · exact List.mem_append_right _ (List.mem_map_of_mem (fun h => (h, e.data)) h2)

/-- A registry with listener 7 under the composite thread:t1:message.create
key and listener 8 under the bare message.create key. -/
def registryEx : Registry :=
  [("thread:t1:message.create", [7]), ("message.create", [8])]

/-- Witness for C8 at the claim's concrete event: an event for resource
thread, id t1, event message.create reaches the listeners under both
thread:t1:message.create and message.create with the same payload. -/
theorem C8_event_fanout_witness :
    7 ∈ handlersOf registryEx ("thread" ++ ":" ++ "t1" ++ ":" ++ "message.create") ∧
    8 ∈ handlersOf registryEx "message.create" ∧
    ((7, "payload") ∈ handleMessage registryEx
        (InboundMessage.eventMsg ⟨"message.create", "thread", "t1", "payload"⟩) ∧
     (8, "payload") ∈ handleMessage registryEx
        (InboundMessage.eventMsg ⟨"message.create", "thread", "t1", "payload"⟩) ∧
     handleMessage registryEx
        (InboundMessage.eventMsg ⟨"message.create", "thread", "t1", "payload"⟩)
       = emit registryEx ("thread" ++ ":" ++ "t1" ++ ":" ++ "message.create") "payload"
         ++ emit registryEx "message.create" "payload") :=
  ⟨by decide, by decide,
    C8_event_fanout registryEx ⟨"message.create", "thread", "t1", "payload"⟩ 7 8
      (by decide) (by decide)⟩

/-! ## Session coordinator: PaanjClient credential state -/

/-- The payload of the user.created / token.updated lifecycle events. -/
structure TokenEvent where
  userId : Option String
  accessToken : String
  refreshToken : String
deriving DecidableEq, Repr

/-- The credential state a PaanjClient instance owns, together with the
token mirrored into each leaf channel and the lifecycle events emitted so
far (in order). -/
structure ClientState where
  accessToken : Option String
  refreshToken : Option String
  userId : Option String
  wsAccessToken : Option String
  httpAccessToken : Option String
  emitted : List (String × TokenEvent)
deriving DecidableEq, Repr

/-- A PaanjClient fresh out of the constructor: no credential, no events. -/
def ClientState.init : ClientState := ⟨none, none, none, none, none, []⟩

/-- JavaScript truthiness of an optional string: null and the empty string
are falsy. -/
def jsTruthy : Option String → Bool
  | none => false
  | some s => s != ""

/-- JavaScript `x || fallback` where x is an optional string. -/
def jsOrEmpty (x : Option String) (fallback : String) : String :=
  match x with
  | none => fallback
  | some s => if s = "" then fallback else s

/-- The refresh endpoint's response body (POST /api/v1/auth/refresh). -/
structure RefreshResponse where
  accessToken : String
  refreshToken : String
deriving DecidableEq, Repr

/-- AuthResponse (core-types.ts lines 36-41). -/
structure AuthResponse where
  accessToken : String
  refreshToken : String
  expiresIn : Int
  userId : String
deriving DecidableEq, Repr

/-- PaanjClient.setSession: store both tokens and the user id, mirror the
access token into both channels. -/
def setSession (s : ClientState) (session : AuthResponse) : ClientState :=
  { s with accessToken := some session.accessToken,
           refreshToken := some session.refreshToken,
           userId := some session.userId,
           wsAccessToken := some session.accessToken,
           httpAccessToken := some session.accessToken }

/-- PaanjClient.getUserId. -/
def getUserId (s : ClientState) : Option String := s.userId

/-- PaanjClient.authenticateWithToken: reject an empty refresh token before
any mutation; otherwise store the tokens, adopt the user id only when it is
truthy, mirror the access token into both channels and emit token.updated.
The result pairs the object state after the call with the call's outcome. -/
def authenticateWithToken (s : ClientState) (token : String)
    (userId : Option String) (refreshToken : String) :
    ClientState × Except String Unit :=
  if refreshToken = "" then
    (s, Except.error "Refresh token is required for token refresh functionality")
  else
    let s1 := { s with accessToken := some token, refreshToken := some refreshToken }
    let s2 := if jsTruthy userId then { s1 with userId := userId } else s1
    let s3 := { s2 with wsAccessToken := some token, httpAccessToken := some token }
    let s4 := { s3 with emitted :=
      s3.emitted ++ [("token.updated", ⟨s3.userId, token, refreshToken⟩)] }
    (s4, Except.ok ())

/-- PaanjClient.refreshAccessToken: reject when no (truthy) refresh token is
stored; otherwise call the refresh endpoint (outcome given by the oracle
`response`), rebuild the session with the new tokens and
`this.userId || the empty string` as user id, mirror via setSession, emit
token.updated, and return the rebuilt AuthResponse. -/
def refreshAccessToken (s : ClientState) (response : Except String RefreshResponse) :
    ClientState × Except String AuthResponse :=
  if !(jsTruthy s.refreshToken) then
    (s, Except.error "No refresh token available")
  else
    match response with
    | Except.error e => (s, Except.error e)
    | Except.ok resp =>
        let authResponse : AuthResponse :=
          ⟨resp.accessToken, resp.refreshToken, 0, jsOrEmpty s.userId ""⟩
        let s1 := setSession s authResponse
        let s2 := { s1 with emitted := s1.emitted
          ++ [("token.updated", ⟨s1.userId, authResponse.accessToken,
                authResponse.refreshToken⟩)] }
        (s2, Except.ok authResponse)

/-- Claim C7: authenticateWithToken with an empty refresh token throws
before any assignment: the call fails and the state — both stored tokens,
the user id, the token mirrored into each channel, and the emitted-event
log (hence no token.updated) — is exactly the state before the call. -/
theorem C7_empty_refresh_token_rejected (s : ClientState) (token : String)
    (userId : Option String) :
    authenticateWithToken s token userId ""
      = (s, Except.error "Refresh token is required for token refresh functionality") := by
  simp [authenticateWithToken]

/-- Claim C10: a successful refreshAccessToken stores
`this.userId || the empty string` as the new user id: with no stored user id
the stored id becomes the empty string — so getUserId afterwards returns the
empty string, not null — and with any stored user id the refresh carries it
over unchanged. -/
theorem C10_refresh_userId (s : ClientState) (resp : RefreshResponse)
    (hrt : jsTruthy s.refreshToken = true) :
    ((refreshAccessToken s (Except.ok resp)).1).userId = some (jsOrEmpty s.userId "") ∧
    (s.userId = none → getUserId (refreshAccessToken s (Except.ok resp)).1 = some "") ∧
    (∀ u : String, s.userId = some u →
      getUserId (refreshAccessToken s (Except.ok resp)).1 = some u) := by
  refine ⟨?_, ?_, ?_⟩
  · simp [refreshAccessToken, hrt, setSession]
  · intro hu
    simp [refreshAccessToken, hrt, setSession, getUserId, jsOrEmpty, hu]
  · intro u hu
    by_cases he : u = ""
    · simp [refreshAccessToken, hrt, setSession, getUserId, jsOrEmpty, hu, he]
    · simp [refreshAccessToken, hrt, setSession, getUserId, jsOrEmpty, hu, he]

/-- A client state holding a refresh token but no user id. -/
def clientNoUserEx : ClientState := ⟨some "at", some "rt", none, some "at", some "at", []⟩

/-- Witness for C10: refreshing with no stored user id leaves getUserId
returning the empty string. -/
theorem C10_refresh_userId_witness :
    jsTruthy clientNoUserEx.refreshToken = true ∧
    (((refreshAccessToken clientNoUserEx (Except.ok ⟨"at2", "rt2"⟩)).1).userId
        = some (jsOrEmpty clientNoUserEx.userId "") ∧
     (clientNoUserEx.userId = none →
        getUserId (refreshAccessToken clientNoUserEx (Except.ok ⟨"at2", "rt2"⟩)).1
          = some "") ∧
     (∀ u : String, clientNoUserEx.userId = some u →
        getUserId (refreshAccessToken clientNoUserEx (Except.ok ⟨"at2", "rt2"⟩)).1
          = some u)) :=
  ⟨rfl, C10_refresh_userId clientNoUserEx ⟨"at2", "rt2"⟩ rfl⟩

end Paanj
